import Mathlib

/-!
Verification of the temu-giveaway claim service (`src/server.js`) against its
natural-language specification.

The development shallowly embeds the JavaScript/Express/PostgreSQL program:

* `JValue` models JavaScript/JSON values as they flow through `express.json()`
  request bodies and the `pg` driver (mutual inductive so that all functions
  are structurally recursive and fully computable).
* `truthy`, `parseIntTen`, `stringifyVal` model the JavaScript operations the
  handlers use (`!x` coercion, `parseInt(x, 10)`, `JSON.stringify`).
* `jsonbVal` models PostgreSQL's `jsonb` input conversion (object keys are
  deduplicated keeping the last occurrence and stored in PostgreSQL's
  canonical key order; array element order is preserved).
* `DBState`, `dbInsert`, `setupDatabase`, `postClaim`, `viewClaims` embed the
  claims table, the `INSERT ... RETURNING id` statement, the
  `CREATE TABLE IF NOT EXISTS` startup migration, and the two route handlers
  of `src/server.js`.
-/

namespace TemuGiveaway

/-! ### JavaScript / JSON values -/

mutual

/-- Model of a JavaScript value as it appears in a parsed JSON request body or
as a `pg` query parameter.  `undefined` doubles as "property absent", matching
the destructuring `const { fullName, ... } = req.body`.  Numbers are modelled
as integers (no claim depends on non-integral numerics). -/
inductive JValue where
  | undefined
  | null
  | bool (b : Bool)
  | num (n : Int)
  | str (s : String)
  | arr (elems : JArr)
  | obj (fields : JObj)
deriving Repr, DecidableEq

/-- List of JSON array elements. -/
inductive JArr where
  | nil
  | cons (v : JValue) (rest : JArr)
deriving Repr, DecidableEq

/-- Association list of JSON object fields, in insertion order. -/
inductive JObj where
  | nil
  | cons (k : String) (v : JValue) (rest : JObj)
deriving Repr, DecidableEq

end

/-- JavaScript truthiness, as used by the guard
`if (!fullName || !email || !fullAddress || !selectedPrizes || ...)`. -/
def truthy : JValue → Bool
  | .undefined => false
  | .null => false
  | .bool b => b
  | .num n => n != 0
  | .str s => !s.isEmpty
  | .arr _ => true
  | .obj _ => true

/-- Strict comparison `x === undefined`, as used for `totalFee`. -/
def isUndef : JValue → Bool
  | .undefined => true
  | _ => false

/-- True for the two values the `pg` driver sends as SQL `NULL`
(`null` and `undefined`). -/
def JValue.isNullish : JValue → Bool
  | .undefined => true
  | .null => true
  | _ => false

/-- Conversion of a list of JValues for convenient theorem statements. -/
def JArr.toList : JArr → List JValue
  | .nil => []
  | .cons v rest => v :: rest.toList

/-- Element lookup in a JSON array. -/
def JArr.get? : JArr → Nat → Option JValue
  | .nil, _ => none
  | .cons v _, 0 => some v
  | .cons _ rest, n + 1 => rest.get? n

/-- Length of a JSON array. -/
def JArr.length : JArr → Nat
  | .nil => 0
  | .cons _ rest => rest.length + 1

mutual

/-- JavaScript `ToString` coercion (as performed by template literals and by
`parseInt` on a non-string argument). -/
def jsToString : JValue → String
  | .undefined => "undefined"
  | .null => "null"
  | .bool b => if b then "true" else "false"
  | .num n => Int.repr n
  | .str s => s
  | .arr xs => arrJoin xs
  | .obj _ => "[object Object]"

/-- The `Array.prototype.toString` / `join(",")` coercion: elements separated
by commas, with `null` and `undefined` elements rendered as the empty
string. -/
def arrJoin : JArr → String
  | .nil => ""
  | .cons v .nil => if v.isNullish then "" else jsToString v
  | .cons v rest => (if v.isNullish then "" else jsToString v) ++ "," ++ arrJoin rest

end

/-- Value of a list of decimal digit characters (most significant first). -/
def evalD (ds : List Char) : Nat :=
  ds.foldl (fun a c => 10 * a + (c.toNat - 48)) 0

/-- Digit scan of `parseInt`: take the leading decimal digits; no digit at all
yields `NaN` (modelled as `none`). -/
def parseDigits (cs : List Char) : Option Nat :=
  let ds := cs.takeWhile Char.isDigit
  if ds.isEmpty then none else some (evalD ds)

/-- Sign handling of `parseInt` after whitespace has been stripped. -/
def parseIntChars : List Char → Option Int
  | '-' :: rest => (parseDigits rest).map (fun n => -(n : Int))
  | '+' :: rest => (parseDigits rest).map (fun n => (n : Int))
  | cs => (parseDigits cs).map (fun n => (n : Int))

/-- Model of the string-level part of JavaScript `parseInt(s, 10)`: strip
leading whitespace, read an optional sign and then leading decimal digits,
ignoring any trailing garbage; `NaN` is modelled as `none`. -/
def parseIntStrTen (s : String) : Option Int :=
  parseIntChars (s.toList.dropWhile Char.isWhitespace)

/-- Model of `parseInt(v, 10)` on an arbitrary JavaScript value: the argument
is first coerced with `ToString`. -/
def parseIntTen (v : JValue) : Option Int :=
  parseIntStrTen (jsToString v)

mutual

/-- Semantic content of `JSON.stringify(v)`: the JSON value denoted by the
produced text.  `JSON.stringify(undefined)` returns no JSON text at all
(modelled as `none`). -/
def stringifyVal : JValue → Option JValue
  | .undefined => none
  | .null => some .null
  | .bool b => some (.bool b)
  | .num n => some (.num n)
  | .str s => some (.str s)
  | .arr xs => some (.arr (stringifyArr xs))
  | .obj fs => some (.obj (stringifyObj fs))

/-- Inside an array, `JSON.stringify` serializes `undefined` elements as
`null`. -/
def stringifyArr : JArr → JArr
  | .nil => .nil
  | .cons v rest => .cons ((stringifyVal v).getD .null) (stringifyArr rest)

/-- Inside an object, `JSON.stringify` drops fields whose value is
`undefined`. -/
def stringifyObj : JObj → JObj
  | .nil => .nil
  | .cons k v rest =>
    match stringifyVal v with
    | none => stringifyObj rest
    | some w => .cons k w (stringifyObj rest)

end

mutual

/-- True when the value contains no `undefined` anywhere; values parsed from
JSON text (such as an `express.json()` request body) always satisfy this. -/
def JValue.noUndef : JValue → Bool
  | .undefined => false
  | .null => true
  | .bool _ => true
  | .num _ => true
  | .str _ => true
  | .arr xs => xs.noUndef
  | .obj fs => fs.noUndef

def JArr.noUndef : JArr → Bool
  | .nil => true
  | .cons v rest => v.noUndef && rest.noUndef

def JObj.noUndef : JObj → Bool
  | .nil => true
  | .cons _ v rest => v.noUndef && rest.noUndef

end

/-! ### PostgreSQL `jsonb` canonical form

`jsonb` preserves array element order, deduplicates object keys keeping the
last occurrence, and stores object keys in PostgreSQL's canonical order
(shorter keys first, ties broken bytewise). -/

/-- PostgreSQL `jsonb` key order: by length, then bytewise. -/
def keyLt (a b : String) : Bool :=
  a.length < b.length || (a.length == b.length && a < b)

/-- Membership test for an object key. -/
def JObj.hasKey : JObj → String → Bool
  | .nil, _ => false
  | .cons k _ rest, key => k == key || rest.hasKey key

/-- Key deduplication of `jsonb` input conversion: when a key occurs several
times, only the last occurrence is kept. -/
def dedupeKeysLast : JObj → JObj
  | .nil => .nil
  | .cons k v rest =>
    if rest.hasKey k then dedupeKeysLast rest else .cons k v (dedupeKeysLast rest)

/-- Ordered insertion of a field by `keyLt`. -/
def insField (k : String) (v : JValue) : JObj → JObj
  | .nil => .cons k v .nil
  | .cons k2 v2 rest =>
    if keyLt k k2 then .cons k v (.cons k2 v2 rest)
    else .cons k2 v2 (insField k v rest)

/-- Insertion sort of object fields into `jsonb` key order. -/
def sortFields : JObj → JObj
  | .nil => .nil
  | .cons k v rest => insField k v (sortFields rest)

mutual

/-- The value actually stored in a `jsonb` column when the given JSON value is
supplied as input: arrays keep their element order, object fields are
recursively normalized, deduplicated and sorted into `jsonb` key order. -/
def jsonbVal : JValue → JValue
  | .undefined => .undefined
  | .null => .null
  | .bool b => .bool b
  | .num n => .num n
  | .str s => .str s
  | .arr xs => .arr (jsonbArr xs)
  | .obj fs => .obj (sortFields (dedupeKeysLast (jsonbObjVals fs)))

/-- Pointwise `jsonb` normalization of array elements (order preserved). -/
def jsonbArr : JArr → JArr
  | .nil => .nil
  | .cons v rest => .cons (jsonbVal v) (jsonbArr rest)

/-- Pointwise `jsonb` normalization of object field values. -/
def jsonbObjVals : JObj → JObj
  | .nil => .nil
  | .cons k v rest => .cons k (jsonbVal v) (jsonbObjVals rest)

end

/-- Structural equality of JSON values: equality of `jsonb` canonical forms
(insensitive to object key order and duplicate keys, sensitive to array
order). -/
def structEq (a b : JValue) : Prop :=
  jsonbVal a = jsonbVal b

/-- Minimal prize record shape described by the specification: an object with
a single `name` field. -/
def prizeRec (name : String) : JValue :=
  .obj (.cons "name" (.str name) .nil)

/-! ### Properties of the `jsonb` canonical form -/

/-- Pointwise predicate on the values of an object. -/
def JObj.Forall (p : JValue → Prop) : JObj → Prop
  | .nil => True
  | .cons _ v rest => p v ∧ rest.Forall p

/-- Keys are pairwise distinct. -/
def JObj.NodupKeys : JObj → Prop
  | .nil => True
  | .cons k _ rest => rest.hasKey k = false ∧ rest.NodupKeys

/-- Head key comparison used to state sortedness. -/
def keyLtHead (k : String) : JObj → Bool
  | .nil => true
  | .cons k2 _ _ => keyLt k k2

/-- Keys are strictly increasing in `jsonb` key order. -/
def JObj.SortedKeys : JObj → Prop
  | .nil => True
  | .cons k _ rest => keyLtHead k rest = true ∧ rest.SortedKeys

theorem keyLt_asymm {a b : String} (h : keyLt a b = true) : keyLt b a = false := by
  simp only [keyLt, Bool.or_eq_true, Bool.and_eq_true, decide_eq_true_eq, beq_iff_eq] at h
  simp only [keyLt, Bool.or_eq_false_iff, Bool.and_eq_false_iff, decide_eq_false_iff_not,
    not_lt, beq_eq_false_iff_ne, ne_eq]
  rcases h with h | ⟨h1, h2⟩
  · exact ⟨le_of_lt h, Or.inl (by omega)⟩
  · exact ⟨le_of_eq h1, Or.inr (not_lt.mpr (le_of_lt h2))⟩

theorem keyLt_conn {a b : String} (h1 : keyLt a b = false) (h2 : keyLt b a = false) :
    a = b := by
  simp only [keyLt, Bool.or_eq_false_iff, Bool.and_eq_false_iff, decide_eq_false_iff_not,
    not_lt, beq_eq_false_iff_ne, ne_eq] at h1 h2
  obtain ⟨hl1, hr1⟩ := h1
  obtain ⟨hl2, hr2⟩ := h2
  have hlen : a.length = b.length := le_antisymm hl2 hl1
  rcases hr1 with h | h
  · exact absurd hlen h
  · rcases hr2 with h' | h'
    · exact absurd hlen.symm h'
    · exact le_antisymm (not_lt.mp h') (not_lt.mp h)

theorem hasKey_insField (k : String) (v : JValue) :
    ∀ (fs : JObj) (key : String),
      (insField k v fs).hasKey key = (k == key || fs.hasKey key)
  | .nil, key => by simp [insField, JObj.hasKey]
  | .cons k2 v2 rest, key => by
    simp only [insField]
    split
    · simp [JObj.hasKey]
    · simp only [JObj.hasKey, hasKey_insField k v rest key]
      cases k2 == key <;> cases k == key <;> simp

theorem hasKey_sortFields : ∀ (fs : JObj) (key : String),
    (sortFields fs).hasKey key = fs.hasKey key
  | .nil, _ => rfl
  | .cons k v rest, key => by
    simp [sortFields, JObj.hasKey, hasKey_insField, hasKey_sortFields rest key]

theorem hasKey_dedupeKeysLast : ∀ (fs : JObj) (key : String),
    (dedupeKeysLast fs).hasKey key = fs.hasKey key
  | .nil, _ => rfl
  | .cons k v rest, key => by
    simp only [dedupeKeysLast]
    split
    · rename_i hmem
      rw [hasKey_dedupeKeysLast rest key]
      simp only [JObj.hasKey]
      by_cases hk : k = key
      · subst hk; simp [hmem]
      · simp [hk]
    · simp [JObj.hasKey, hasKey_dedupeKeysLast rest key]

theorem dedupeKeysLast_nodup : ∀ fs : JObj, (dedupeKeysLast fs).NodupKeys
  | .nil => trivial
  | .cons k v rest => by
    simp only [dedupeKeysLast]
    split
    · exact dedupeKeysLast_nodup rest
    · rename_i hmem
      exact ⟨by rw [hasKey_dedupeKeysLast]; simpa using hmem, dedupeKeysLast_nodup rest⟩

theorem dedupeKeysLast_eq_self : ∀ {fs : JObj}, fs.NodupKeys → dedupeKeysLast fs = fs
  | .nil, _ => rfl
  | .cons k v rest, ⟨h1, h2⟩ => by
    simp only [dedupeKeysLast, h1]
    simp [dedupeKeysLast_eq_self h2]

theorem insField_nodup (k : String) (v : JValue) :
    ∀ {fs : JObj}, fs.NodupKeys → fs.hasKey k = false → (insField k v fs).NodupKeys
  | .nil, _, _ => ⟨rfl, trivial⟩
  | .cons k2 v2 rest, ⟨h1, h2⟩, hk => by
    simp only [JObj.hasKey, Bool.or_eq_false_iff, beq_eq_false_iff_ne] at hk
    obtain ⟨hne, hk2⟩ := hk
    simp only [insField]
    split
    · refine ⟨?_, h1, h2⟩
      simp only [JObj.hasKey, Bool.or_eq_false_iff, beq_eq_false_iff_ne]
      exact ⟨hne, hk2⟩
    · refine ⟨?_, insField_nodup k v h2 hk2⟩
      rw [hasKey_insField]
      simp only [Bool.or_eq_false_iff, beq_eq_false_iff_ne]
      exact ⟨fun e => hne e.symm, h1⟩

theorem sortFields_nodup : ∀ {fs : JObj}, fs.NodupKeys → (sortFields fs).NodupKeys
  | .nil, _ => trivial
  | .cons k v rest, ⟨h1, h2⟩ =>
    insField_nodup k v (sortFields_nodup h2) (by rw [hasKey_sortFields]; exact h1)

theorem keyLtHead_insField {j k : String} {v : JValue} {fs : JObj}
    (hjk : keyLt j k = true) (hf : keyLtHead j fs = true) :
    keyLtHead j (insField k v fs) = true := by
  cases fs with
  | nil => simpa [insField, keyLtHead]
  | cons k2 v2 rest =>
    simp only [keyLtHead] at hf
    simp only [insField]
    split <;> simp [keyLtHead, hjk, hf]

theorem insField_sorted (k : String) (v : JValue) :
    ∀ {fs : JObj}, fs.SortedKeys → fs.hasKey k = false → (insField k v fs).SortedKeys
  | .nil, _, _ => ⟨rfl, trivial⟩
  | .cons k2 v2 rest, ⟨h1, h2⟩, hk => by
    simp only [JObj.hasKey, Bool.or_eq_false_iff, beq_eq_false_iff_ne] at hk
    obtain ⟨hne, hk2⟩ := hk
    simp only [insField]
    split
    · rename_i hlt
      exact ⟨by simpa [keyLtHead], h1, h2⟩
    · rename_i hnlt
      have hnlt' : keyLt k k2 = false := by simpa using hnlt
      have hk2k : keyLt k2 k = true := by
        rcases hb : keyLt k2 k with _ | _
        · exact absurd (keyLt_conn hnlt' hb) (fun e => hne e.symm)
        · rfl
      exact ⟨keyLtHead_insField hk2k h1, insField_sorted k v h2 hk2⟩

theorem sortFields_sorted : ∀ {fs : JObj}, fs.NodupKeys → (sortFields fs).SortedKeys
  | .nil, _ => trivial
  | .cons k v rest, ⟨h1, h2⟩ =>
    insField_sorted k v (sortFields_sorted h2) (by rw [hasKey_sortFields]; exact h1)

theorem sortFields_eq_self : ∀ {fs : JObj}, fs.SortedKeys → sortFields fs = fs
  | .nil, _ => rfl
  | .cons k v rest, ⟨h1, h2⟩ => by
    rw [sortFields, sortFields_eq_self h2]
    cases rest with
    | nil => rfl
    | cons k2 v2 rest2 =>
      simp only [keyLtHead] at h1
      simp [insField, h1]

theorem Forall_insField {p : JValue → Prop} {k : String} {v : JValue} (hv : p v) :
    ∀ {fs : JObj}, fs.Forall p → (insField k v fs).Forall p
  | .nil, _ => ⟨hv, trivial⟩
  | .cons k2 v2 rest, ⟨h1, h2⟩ => by
    simp only [insField]
    split
    · exact ⟨hv, h1, h2⟩
    · exact ⟨h1, Forall_insField hv h2⟩

theorem Forall_sortFields {p : JValue → Prop} :
    ∀ {fs : JObj}, fs.Forall p → (sortFields fs).Forall p
  | .nil, _ => trivial
  | .cons _ _ _, ⟨h1, h2⟩ => Forall_insField h1 (Forall_sortFields h2)

theorem Forall_dedupeKeysLast {p : JValue → Prop} :
    ∀ {fs : JObj}, fs.Forall p → (dedupeKeysLast fs).Forall p
  | .nil, _ => trivial
  | .cons k v rest, ⟨h1, h2⟩ => by
    simp only [dedupeKeysLast]
    split
    · exact Forall_dedupeKeysLast h2
    · exact ⟨h1, Forall_dedupeKeysLast h2⟩

theorem jsonbObjVals_eq_self_of_forall :
    ∀ {fs : JObj}, fs.Forall (fun v => jsonbVal v = v) → jsonbObjVals fs = fs
  | .nil, _ => rfl
  | .cons k v rest, ⟨h1, h2⟩ => by
    simp [jsonbObjVals, h1, jsonbObjVals_eq_self_of_forall h2]

mutual

/-- Storing an already-stored `jsonb` value changes nothing: the canonical
form is idempotent. -/
theorem jsonbVal_idem : ∀ v, jsonbVal (jsonbVal v) = jsonbVal v
  | .undefined | .null | .bool _ | .num _ | .str _ => rfl
  | .arr xs => by simp only [jsonbVal]; rw [jsonbArr_idem xs]
  | .obj fs => by
    have h1 := jsonbObjVals_normal fs
    simp only [jsonbVal]
    rw [jsonbObjVals_eq_self_of_forall (Forall_sortFields (Forall_dedupeKeysLast h1)),
      dedupeKeysLast_eq_self (sortFields_nodup (dedupeKeysLast_nodup _)),
      sortFields_eq_self (sortFields_sorted (dedupeKeysLast_nodup _))]

theorem jsonbArr_idem : ∀ xs, jsonbArr (jsonbArr xs) = jsonbArr xs
  | .nil => rfl
  | .cons v rest => by
    simp only [jsonbArr]
    rw [jsonbVal_idem v, jsonbArr_idem rest]

theorem jsonbObjVals_normal : ∀ fs, JObj.Forall (fun v => jsonbVal v = v) (jsonbObjVals fs)
  | .nil => trivial
  | .cons _ v rest => ⟨jsonbVal_idem v, jsonbObjVals_normal rest⟩

end

/-- The stored form of any JSON value is structurally equal to the submitted
value. -/
theorem structEq_jsonbVal_self (v : JValue) : structEq (jsonbVal v) v :=
  jsonbVal_idem v

theorem jsonbArr_length : ∀ xs : JArr, (jsonbArr xs).length = xs.length
  | .nil => rfl
  | .cons v rest => by simp [jsonbArr, JArr.length, jsonbArr_length rest]

theorem jsonbArr_get? : ∀ (xs : JArr) (i : Nat),
    (jsonbArr xs).get? i = (xs.get? i).map jsonbVal
  | .nil, _ => by simp [jsonbArr, JArr.get?]
  | .cons v rest, 0 => by simp [jsonbArr, JArr.get?]
  | .cons v rest, n + 1 => by simpa [jsonbArr, JArr.get?] using jsonbArr_get? rest n

/-! ### Basic facts about the JavaScript coercions -/

theorem truthy_not_nullish {v : JValue} (h : truthy v = true) : v.isNullish = false := by
  cases v <;> simp_all [truthy, JValue.isNullish]

theorem isUndef_iff {v : JValue} : isUndef v = true ↔ v = .undefined := by
  cases v <;> simp [isUndef]

/-- A truthy value serializes to an actual JSON text denoting a non-null
value (so the `selected_prizes` parameter of the insert is never SQL
`NULL`). -/
theorem stringify_of_truthy {v : JValue} (h : truthy v = true) :
    ∃ w, stringifyVal v = some w ∧ w.isNullish = false := by
  cases v with
  | undefined => simp [truthy] at h
  | null => simp [truthy] at h
  | bool b => exact ⟨.bool b, rfl, rfl⟩
  | num n => exact ⟨.num n, rfl, rfl⟩
  | str s => exact ⟨.str s, rfl, rfl⟩
  | arr xs => exact ⟨.arr (stringifyArr xs), rfl, rfl⟩
  | obj fs => exact ⟨.obj (stringifyObj fs), rfl, rfl⟩

mutual

/-- On values without `undefined` (in particular on anything parsed from the
JSON request body), `JSON.stringify` denotes the value itself. -/
theorem stringify_of_noUndef : ∀ {v : JValue}, v.noUndef = true → stringifyVal v = some v
  | .undefined, h => by simp [JValue.noUndef] at h
  | .null, _ | .bool _, _ | .num _, _ | .str _, _ => rfl
  | .arr xs, h => by
    simp only [stringifyVal, Option.some.injEq, JValue.arr.injEq]
    exact stringifyArr_of_noUndef (by simpa [JValue.noUndef] using h)
  | .obj fs, h => by
    simp only [stringifyVal, Option.some.injEq, JValue.obj.injEq]
    exact stringifyObj_of_noUndef (by simpa [JValue.noUndef] using h)

theorem stringifyArr_of_noUndef : ∀ {xs : JArr}, xs.noUndef = true → stringifyArr xs = xs
  | .nil, _ => rfl
  | .cons v rest, h => by
    have h' := (Bool.and_eq_true _ _).mp (by simpa [JArr.noUndef] using h)
    simp [stringifyArr, stringify_of_noUndef h'.1, stringifyArr_of_noUndef h'.2]

theorem stringifyObj_of_noUndef : ∀ {fs : JObj}, fs.noUndef = true → stringifyObj fs = fs
  | .nil, _ => rfl
  | .cons k v rest, h => by
    have h' := (Bool.and_eq_true _ _).mp (by simpa [JObj.noUndef] using h)
    simp only [stringifyObj, stringify_of_noUndef h'.1]
    simp [stringifyObj_of_noUndef h'.2]

end

/-! ### JSON text rendering (used by the listing route's output) -/

/-- Escaping of a character inside a JSON string literal (quotes and
backslashes; control-character escapes are not needed by any claim). -/
def escChar (c : Char) : String :=
  if c = '"' then "\\\"" else if c = '\\' then "\\\\" else String.singleton c

/-- Escaping of a JSON string literal body. -/
def escapeJson (s : String) : String :=
  String.join (s.toList.map escChar)

mutual

/-- Text produced by `JSON.stringify` for a JSON value (indentation
whitespace of `JSON.stringify(v, null, 2)` is abstracted away; stored
`jsonb` values never contain `undefined`, rendered here as `"null"`). -/
def jsonTextOf : JValue → String
  | .undefined => "null"
  | .null => "null"
  | .bool b => if b then "true" else "false"
  | .num n => Int.repr n
  | .str s => "\"" ++ escapeJson s ++ "\""
  | .arr xs => "[" ++ jsonTextArr xs ++ "]"
  | .obj fs => "\x7b" ++ jsonTextObj fs ++ "\x7d"

/-- Comma-separated rendering of array elements. -/
def jsonTextArr : JArr → String
  | .nil => ""
  | .cons v .nil => jsonTextOf v
  | .cons v rest => jsonTextOf v ++ "," ++ jsonTextArr rest

/-- Comma-separated rendering of object fields. -/
def jsonTextObj : JObj → String
  | .nil => ""
  | .cons k v .nil => "\"" ++ escapeJson k ++ "\":" ++ jsonTextOf v
  | .cons k v rest => "\"" ++ escapeJson k ++ "\":" ++ jsonTextOf v ++ "," ++ jsonTextObj rest

end

/-! ### The driver's text encoding of query parameters

The `pg` driver's `prepareValue` converts each non-null parameter to text:
strings are passed through, numbers and booleans via `toString`, plain
objects via `JSON.stringify`, and arrays as a PostgreSQL array literal with
`NULL` for nullish elements and other elements quoted and escaped.  This is
the text a `VARCHAR(n)` column length-checks and the text the listing reads
back. -/

mutual

/-- Text sent by the driver for a non-nullish parameter (`prepareValue`). -/
def pgText : JValue → String
  | .undefined => ""
  | .null => ""
  | .bool b => if b then "true" else "false"
  | .num n => Int.repr n
  | .str s => s
  | .arr xs => "\x7b" ++ pgArrayElems xs ++ "\x7d"
  | .obj fs => jsonTextOf (.obj fs)

/-- Comma-separated elements of the driver's array-literal encoding. -/
def pgArrayElems : JArr → String
  | .nil => ""
  | .cons v .nil => pgArrayElem v
  | .cons v rest => pgArrayElem v ++ "," ++ pgArrayElems rest

/-- One element of the driver's array-literal encoding: nullish elements
become `NULL`, nested arrays recurse, anything else is quoted and escaped. -/
def pgArrayElem : JValue → String
  | .undefined => "NULL"
  | .null => "NULL"
  | .arr xs => "\x7b" ++ pgArrayElems xs ++ "\x7d"
  | .bool b => "\"" ++ (if b then "true" else "false") ++ "\""
  | .num n => "\"" ++ escapeJson (Int.repr n) ++ "\""
  | .str s => "\"" ++ escapeJson s ++ "\""
  | .obj fs => "\"" ++ escapeJson (jsonTextOf (.obj fs)) ++ "\""

end

/-- Text of a nullable parameter: SQL `NULL` for nullish values, otherwise
the driver text; this is exactly what a nullable `VARCHAR` column stores and
what the listing reads back. -/
def pgTextOpt (v : JValue) : Option String :=
  if v.isNullish then none else some (pgText v)

/-- A parameter fits a `VARCHAR(limit)` column when it is SQL `NULL` or its
text has at most `limit` characters (PostgreSQL counts characters). -/
def varcharOk (limit : Nat) (v : JValue) : Bool :=
  v.isNullish || (pgText v).length ≤ limit

/-- Range of the PostgreSQL `INTEGER` (int4) type. -/
def int4Range (n : Int) : Bool :=
  -2147483648 ≤ n && n ≤ 2147483647

/-! ### The claims store (PostgreSQL model)

The `claims` table of `src/server.js`:

```
CREATE TABLE IF NOT EXISTS claims (
    id SERIAL PRIMARY KEY,
    full_name VARCHAR(255) NOT NULL,
    email VARCHAR(255) NOT NULL,
    phone VARCHAR(50),
    city VARCHAR(100),
    full_address TEXT NOT NULL,
    selected_prizes JSONB NOT NULL,
    total_fee INTEGER NOT NULL,
    claim_date TIMESTAMP WITH TIME ZONE DEFAULT CURRENT_TIMESTAMP
);
```
-/

/-- A persisted row of the `claims` table.  Text columns hold the driver
text (`pgText`) of the parameter, which is also what the listing reads back;
nullable columns hold `none` for SQL `NULL`.  `claim_date` is the value of
the database clock at insert time. -/
structure Row where
  id : Nat
  full_name : String
  email : String
  phone : Option String
  city : Option String
  full_address : String
  selected_prizes : JValue
  total_fee : Int
  claim_date : Nat
deriving Repr, DecidableEq

/-- The `claims` table together with the `SERIAL` sequence backing `id`. -/
structure ClaimsTable where
  rows : List Row
  nextId : Nat
deriving Repr, DecidableEq

/-- State of the PostgreSQL instance as seen through the pool:
whether connections succeed, whether the `claims` table exists, and the
`CURRENT_TIMESTAMP` clock (monotone, abstracted to a counter). -/
structure DBState where
  reachable : Bool
  table : Option ClaimsTable
  clock : Nat
deriving Repr, DecidableEq

/-- Errors surfaced by the driver, each carrying the `err.message` the
handlers embed into their 500 envelopes. -/
inductive DBError where
  | connectionFailed
  | undefinedTable
  | notNullViolation (column : String)
  | invalidIntegerText
  | outOfRangeInteger (text : String)
  | valueTooLong (limit : Nat)
deriving Repr, DecidableEq

/-- The `err.message` text reported for each failure. -/
def DBError.message : DBError → String
  | .connectionFailed => "connection to server failed"
  | .undefinedTable => "relation \"claims\" does not exist"
  | .notNullViolation c =>
    "null value in column \"" ++ c ++ "\" violates not-null constraint"
  | .invalidIntegerText => "invalid input syntax for type integer"
  | .outOfRangeInteger s =>
    "value \"" ++ s ++ "\" is out of range for type integer"
  | .valueTooLong n =>
    "value too long for type character varying(" ++ Nat.repr n ++ ")"

/-- The parameter vector `values` built by the `POST /claim` handler:
`[fullName, email, phone, city, fullAddress, JSON.stringify(selectedPrizes),
parseInt(totalFee, 10)]`.  `selected_prizes = none` models
`JSON.stringify` returning `undefined`; `total_fee = none` models `NaN`. -/
structure InsertValues where
  full_name : JValue
  email : JValue
  phone : JValue
  city : JValue
  full_address : JValue
  selected_prizes : Option JValue
  total_fee : Option Int
deriving Repr, DecidableEq

/-- First error raised while binding and checking the insert parameters:
the `total_fee` text must be an integer (`parseInt` producing `NaN` is sent
as the text `NaN`) inside the `INTEGER` (int4) range — both rejected by
`int4in` at Bind time, before the execution-stage checks — each `VARCHAR(n)`
column must receive at most `n` characters, and each `NOT NULL` column must
not receive `NULL`.  Returns `none` when the row is accepted. -/
def insertError (v : InsertValues) : Option DBError :=
  match v.total_fee with
  | none => some .invalidIntegerText
  | some fee =>
    if !int4Range fee then some (.outOfRangeInteger (Int.repr fee))
    else if !varcharOk 255 v.full_name then some (.valueTooLong 255)
    else if !varcharOk 255 v.email then some (.valueTooLong 255)
    else if !varcharOk 50 v.phone then some (.valueTooLong 50)
    else if !varcharOk 100 v.city then some (.valueTooLong 100)
    else if v.full_name.isNullish then some (.notNullViolation "full_name")
    else if v.email.isNullish then some (.notNullViolation "email")
    else if v.full_address.isNullish then some (.notNullViolation "full_address")
    else
      match v.selected_prizes with
      | none => some (.notNullViolation "selected_prizes")
      | some sp =>
        if sp.isNullish then some (.notNullViolation "selected_prizes")
        else none

/-- The row formed from accepted parameters (the `getD` defaults are never
reached: `insertError` has already ruled out `none` fee and prizes). -/
def newRow (v : InsertValues) (nextId clock : Nat) : Row :=
  { id := nextId
    full_name := pgText v.full_name
    email := pgText v.email
    phone := pgTextOpt v.phone
    city := pgTextOpt v.city
    full_address := pgText v.full_address
    selected_prizes := jsonbVal ((v.selected_prizes).getD .null)
    total_fee := (v.total_fee).getD 0
    claim_date := clock }

/-- Model of the single statement
`INSERT INTO claims (...) VALUES ($1,...,$7) RETURNING id;`.
It fails when the connection is down, when the table does not exist, or when
`insertError` reports a binding or constraint failure.  On success it
atomically appends one row carrying the fresh `SERIAL` id and the current
timestamp, and returns that id. -/
def dbInsert (db : DBState) (v : InsertValues) : Except DBError (DBState × Nat) :=
  if !db.reachable then .error .connectionFailed
  else
    match db.table with
    | none => .error .undefinedTable
    | some t =>
      match insertError v with
      | some e => .error e
      | none =>
        .ok ({ db with
                table := some ⟨t.rows ++ [newRow v t.nextId db.clock], t.nextId + 1⟩
                clock := db.clock + 1 },
             t.nextId)

/-- JavaScript truthiness of the `DATABASE_URL` environment variable
(`undefined` and the empty string are both falsy). -/
def envTruthy : Option String → Bool
  | none => false
  | some s => !s.isEmpty

/-- The inner body of `setupDatabase` (connect, then
`CREATE TABLE IF NOT EXISTS claims (...)`): non-destructive, existing rows
and the id sequence are untouched when the table already exists. -/
def createTableIfNotExists (db : DBState) : Except DBError DBState :=
  if !db.reachable then .error .connectionFailed
  else
    match db.table with
    | some _ => .ok db
    | none => .ok { db with table := some ⟨[], 1⟩ }

/-- Model of `setupDatabase` from `src/server.js`: skipped entirely when
`DATABASE_URL` is missing; any database error is caught and only logged
(the boolean result records whether the catch branch ran). -/
def setupDatabase (dbUrl : Option String) (db : DBState) : DBState × Bool :=
  if !envTruthy dbUrl then (db, false)
  else
    match createTableIfNotExists db with
    | .ok db2 => (db2, false)
    | .error _ => (db, true)

/-- Process startup: the missing-`DATABASE_URL` check only logs, and every
database error inside `setupDatabase` is caught, so startup always completes
(no exception escapes to the process level). -/
def startProcess (dbUrl : Option String) (db : DBState) : Except String (DBState × Bool) :=
  .ok (setupDatabase dbUrl db)

/-! ### Injectivity of the decimal rendering used by tracking identifiers

The handler builds tracking identifiers as the template literal
`TEMU-CLAIM-${claimId}`; freshness of the identifier reduces to injectivity
of the decimal rendering of the row id. -/

/-- Specification of the character list produced by `Nat.toDigits 10`. -/
def digitsRep (n : Nat) : List Char :=
  if n < 10 then [Nat.digitChar n]
  else digitsRep (n / 10) ++ [Nat.digitChar (n % 10)]
termination_by n
decreasing_by exact Nat.div_lt_self (by omega) (by omega)

theorem toDigitsCore_eq (fuel : Nat) :
    ∀ (n : Nat) (ds : List Char), n < fuel →
      Nat.toDigitsCore 10 fuel n ds = digitsRep n ++ ds := by
  induction fuel with
  | zero => omega
  | succ f ih =>
    intro n ds h
    rw [Nat.toDigitsCore]
    by_cases h10 : n / 10 = 0
    · have hn : n < 10 := (Nat.div_eq_zero_iff (by omega)).mp h10
      rw [if_pos h10, digitsRep, if_pos hn, Nat.mod_eq_of_lt hn]
      rfl
    · have hn : ¬ n < 10 := by
        intro hc
        exact h10 ((Nat.div_eq_zero_iff (by omega)).mpr hc)
      rw [if_neg h10, ih (n / 10) _ (by omega)]
      conv_rhs => rw [digitsRep]
      rw [if_neg hn, List.append_assoc]
      rfl

theorem evalD_append_digit (ds : List Char) (c : Char) :
    evalD (ds ++ [c]) = 10 * evalD ds + (c.toNat - 48) := by
  simp [evalD, List.foldl_append]

theorem digitChar_val {m : Nat} (h : m < 10) : (Nat.digitChar m).toNat - 48 = m := by
  interval_cases m <;> decide

theorem evalD_digitsRep (n : Nat) : evalD (digitsRep n) = n := by
  by_cases h : n < 10
  · rw [digitsRep, if_pos h]
    have := digitChar_val h
    simp only [evalD, List.foldl_cons, List.foldl_nil]
    omega
  · rw [digitsRep, if_neg h, evalD_append_digit, evalD_digitsRep (n / 10),
      digitChar_val (Nat.mod_lt n (by omega))]
    omega
termination_by n
decreasing_by exact Nat.div_lt_self (by omega) (by omega)

theorem natRepr_injective {a b : Nat} (h : Nat.repr a = Nat.repr b) : a = b := by
  have hd : Nat.toDigits 10 a = Nat.toDigits 10 b := congrArg String.data h
  rw [Nat.toDigits, Nat.toDigits, toDigitsCore_eq _ _ _ (Nat.lt_succ_self a),
    toDigitsCore_eq _ _ _ (Nat.lt_succ_self b), List.append_nil, List.append_nil] at hd
  have := evalD_digitsRep a
  rw [hd, evalD_digitsRep b] at this
  omega

theorem trackingId_injective {a b : Nat}
    (h : "TEMU-CLAIM-" ++ Nat.repr a = "TEMU-CLAIM-" ++ Nat.repr b) : a = b := by
  apply natRepr_injective
  have hd := congrArg String.data h
  simp only [String.data_append] at hd
  exact String.ext (List.append_cancel_left hd)

/-! ### The HTTP layer -/

/-- The destructured request body
`const { fullName, email, phone, city, fullAddress, selectedPrizes, totalFee } = req.body;`
where an absent property destructures to `undefined`. -/
structure ReqBody where
  fullName : JValue
  email : JValue
  phone : JValue
  city : JValue
  fullAddress : JValue
  selectedPrizes : JValue
  totalFee : JValue
deriving Repr, DecidableEq

/-- Body of an HTTP response: a JSON envelope (`res.json`) or plain text
(`res.send` with `Content-Type: text/plain`). -/
inductive RespBody where
  | jsonObj (fields : List (String × JValue))
  | text (s : String)
deriving Repr, DecidableEq

/-- An HTTP response; `res.json`/`res.send` without an explicit status use
200. -/
structure Response where
  status : Nat
  body : RespBody
deriving Repr, DecidableEq

/-- Result of one request: the response, the resulting database state, and
the number of database operations attempted while handling it. -/
structure HandlerResult where
  resp : Response
  db : DBState
  dbCalls : Nat
deriving Repr, DecidableEq

/-- Model of the `POST /claim` handler of `src/server.js`. -/
def postClaim (dbUrl : Option String) (body : ReqBody) (db : DBState) : HandlerResult :=
  if !envTruthy dbUrl then
    { resp := { status := 500
                body := .jsonObj
                  [("success", .bool false),
                   ("message", .str "Database connection failed: DATABASE_URL is not set.")] }
      db := db, dbCalls := 0 }
  else if !truthy body.fullName || !truthy body.email || !truthy body.fullAddress
      || !truthy body.selectedPrizes || isUndef body.totalFee then
    { resp := { status := 400
                body := .jsonObj
                  [("success", .bool false),
                   ("message", .str "Missing required claim fields.")] }
      db := db, dbCalls := 0 }
  else
    match dbInsert db
      { full_name := body.fullName
        email := body.email
        phone := body.phone
        city := body.city
        full_address := body.fullAddress
        selected_prizes := stringifyVal body.selectedPrizes
        total_fee := parseIntTen body.totalFee } with
    | .ok (db2, claimId) =>
      { resp := { status := 200
                  body := .jsonObj
                    [("success", .bool true),
                     ("message", .str "Claim successfully recorded in the PostgreSQL database!"),
                     ("trackingId", .str ("TEMU-CLAIM-" ++ Nat.repr claimId))] }
        db := db2, dbCalls := 1 }
    | .error e =>
      { resp := { status := 500
                  body := .jsonObj
                    [("success", .bool false),
                     ("message", .str "Claim failed due to a database error. Check server logs for details."),
                     ("error", .str e.message)] }
        db := db, dbCalls := 1 }

/-- The ordering `ORDER BY claim_date DESC` sorts by: most recent first. -/
def newestFirst (a b : Row) : Prop :=
  b.claim_date ≤ a.claim_date

instance : DecidableRel newestFirst :=
  fun a b => Nat.decLe b.claim_date a.claim_date

instance : IsTotal Row newestFirst :=
  ⟨fun a b => Nat.le_total b.claim_date a.claim_date⟩

instance : IsTrans Row newestFirst :=
  ⟨fun _ _ _ h1 h2 => Nat.le_trans h2 h1⟩

/-- Result rows of `SELECT * FROM claims ORDER BY claim_date DESC;`. -/
def orderByDateDesc (rows : List Row) : List Row :=
  List.insertionSort newestFirst rows

/-- The 55-character `=` separator line of the listing output. -/
def sepLine : String := String.mk (List.replicate 55 '=')

/-- Rendering of `claim.phone || 'N/A'` on the read-back value: SQL `NULL`
and the empty string are falsy, any other text (including `"false"` or
`"0"`) is printed as is. -/
def textOrNA : Option String → String
  | none => "N/A"
  | some s => if s.isEmpty then "N/A" else s

/-- One formatted block of the `/view-claims` plain-text output (date
rendering and JSON pretty-printing whitespace are abstracted). -/
def claimBlock (index : Nat) (claim : Row) : String :=
  "\n" ++ sepLine ++ "\n"
  ++ "CLAIM ID: " ++ Nat.repr (if claim.id != 0 then claim.id else index + 1)
  ++ " | DATE: " ++ Nat.repr claim.claim_date ++ "\n"
  ++ sepLine ++ "\n"
  ++ "Full Name: " ++ claim.full_name ++ "\n"
  ++ "Email: " ++ claim.email ++ "\n"
  ++ "Phone: " ++ textOrNA claim.phone ++ "\n"
  ++ "City: " ++ textOrNA claim.city ++ "\n"
  ++ "Address: " ++ claim.full_address ++ "\n"
  ++ "Total Fee: $" ++ Int.repr claim.total_fee ++ "\n"
  ++ "Selected Prizes:\n" ++ jsonTextOf claim.selected_prizes ++ "\n"

/-- The full plain-text rendering of the claims listing. -/
def formatClaims (claims : List Row) : String :=
  "--- TEMU GIVEAWAY CLAIM SUBMISSIONS ---\n"
  ++ String.join (claims.enum.map (fun p => claimBlock p.1 p.2))

/-- Model of the `GET /view-claims` handler of `src/server.js`. -/
def viewClaims (dbUrl : Option String) (db : DBState) : HandlerResult :=
  if !envTruthy dbUrl then
    { resp := { status := 500, body := .text "Database not configured." }
      db := db, dbCalls := 0 }
  else if !db.reachable then
    { resp := { status := 500
                body := .text ("CRITICAL ERROR FETCHING DATA: "
                  ++ DBError.message .connectionFailed) }
      db := db, dbCalls := 1 }
  else
    match db.table with
    | none =>
      { resp := { status := 500
                  body := .text ("CRITICAL ERROR FETCHING DATA: "
                    ++ DBError.message .undefinedTable) }
        db := db, dbCalls := 1 }
    | some t =>
      if (orderByDateDesc t.rows).length == 0 then
        { resp := { status := 200, body := .text "No claim data found in the database yet." }
          db := db, dbCalls := 1 }
      else
        { resp := { status := 200, body := .text (formatClaims (orderByDateDesc t.rows)) }
          db := db, dbCalls := 1 }

/-! ### Characterization of the handler paths -/

/-- The row written by a successful `POST /claim`, given the JSON value `sp`
denoted by `JSON.stringify(selectedPrizes)` and the parsed fee. -/
def insertedRow (body : ReqBody) (sp : JValue) (fee : Int) (nextId clock : Nat) : Row :=
  { id := nextId
    full_name := pgText body.fullName
    email := pgText body.email
    phone := pgTextOpt body.phone
    city := pgTextOpt body.city
    full_address := pgText body.fullAddress
    selected_prizes := jsonbVal sp
    total_fee := fee
    claim_date := clock }

/-- The success envelope returned by `POST /claim`. -/
def successResp (claimId : Nat) : Response :=
  { status := 200
    body := .jsonObj
      [("success", .bool true),
       ("message", .str "Claim successfully recorded in the PostgreSQL database!"),
       ("trackingId", .str ("TEMU-CLAIM-" ++ Nat.repr claimId))] }

theorem dbInsert_ok {db : DBState} {v : InsertValues} {db2 : DBState} {cid : Nat}
    (h : dbInsert db v = .ok (db2, cid)) :
    ∃ t row, db.table = some t ∧ cid = t.nextId ∧
      db2 = { db with
              table := some ⟨t.rows ++ [row], t.nextId + 1⟩
              clock := db.clock + 1 } := by
  unfold dbInsert at h
  split at h
  · exact absurd h (by simp)
  · split at h
    · exact absurd h (by simp)
    · rename_i t htab
      split at h
      · exact absurd h (by simp)
      · simp only [Except.ok.injEq, Prod.mk.injEq] at h
        exact ⟨t, _, htab, h.2.symm, h.1.symm⟩

/-- A `POST /claim` request with a configured store, a reachable database,
an existing table, truthy mandatory fields, a fee that parses to an integer
inside the `INTEGER` (int4) range, and text fields within their `VARCHAR`
limits succeeds: exactly one row is appended, the `SERIAL` sequence
advances, and the success envelope carries `TEMU-CLAIM-` followed by the
fresh row id. -/
theorem postClaim_success {dbUrl : Option String} {body : ReqBody} {db : DBState}
    {t : ClaimsTable} {fee : Int}
    (hurl : envTruthy dbUrl = true)
    (hreach : db.reachable = true)
    (htab : db.table = some t)
    (h1 : truthy body.fullName = true)
    (h2 : truthy body.email = true)
    (h3 : truthy body.fullAddress = true)
    (h4 : truthy body.selectedPrizes = true)
    (hfee : parseIntTen body.totalFee = some fee)
    (hrange : int4Range fee = true)
    (hname : varcharOk 255 body.fullName = true)
    (hemail : varcharOk 255 body.email = true)
    (hphone : varcharOk 50 body.phone = true)
    (hcity : varcharOk 100 body.city = true) :
    ∃ sp, stringifyVal body.selectedPrizes = some sp ∧
      postClaim dbUrl body db =
        { resp := successResp t.nextId
          db := { db with
                  table := some ⟨t.rows ++ [insertedRow body sp fee t.nextId db.clock],
                                 t.nextId + 1⟩
                  clock := db.clock + 1 }
          dbCalls := 1 } := by
  obtain ⟨sp, hsp, hspnn⟩ := stringify_of_truthy h4
  refine ⟨sp, hsp, ?_⟩
  have hundef : isUndef body.totalFee = false := by
    by_contra hc
    rw [Bool.not_eq_false] at hc
    have hnone : parseIntTen JValue.undefined = none := by decide
    rw [isUndef_iff.mp hc, hnone] at hfee
    simp at hfee
  have herr : insertError
      { full_name := body.fullName
        email := body.email
        phone := body.phone
        city := body.city
        full_address := body.fullAddress
        selected_prizes := stringifyVal body.selectedPrizes
        total_fee := parseIntTen body.totalFee } = none := by
    simp only [insertError, hfee, hsp, hrange, hname, hemail, hphone, hcity,
      truthy_not_nullish h1, truthy_not_nullish h2, truthy_not_nullish h3, hspnn,
      Bool.not_true, Bool.false_eq_true, if_false]
  have hins : dbInsert db
      { full_name := body.fullName
        email := body.email
        phone := body.phone
        city := body.city
        full_address := body.fullAddress
        selected_prizes := stringifyVal body.selectedPrizes
        total_fee := parseIntTen body.totalFee } =
      .ok ({ db with
             table := some ⟨t.rows ++ [insertedRow body sp fee t.nextId db.clock],
                            t.nextId + 1⟩
             clock := db.clock + 1 }, t.nextId) := by
    unfold dbInsert
    rw [hreach, htab, herr]
    simp only [Bool.not_true, Bool.false_eq_true, if_false, newRow, insertedRow,
      hsp, hfee, Option.getD_some]
  unfold postClaim
  rw [hurl]
  simp only [Bool.not_true, Bool.false_eq_true, if_false, h1, h2, h3, h4, hundef,
    Bool.false_or, Bool.or_false, Bool.or_self, if_false, hins, successResp]

/-! ### Concrete fixtures used by witnesses and counterexamples -/

/-- A configured `DATABASE_URL`. -/
def someUrl : Option String := some "postgres://db"

/-- A reachable database with an empty, freshly created claims table. -/
def freshDB : DBState :=
  { reachable := true, table := some { rows := [], nextId := 1 }, clock := 0 }

/-- The fully valid example submission from the specification's scenario. -/
def janeBody : ReqBody :=
  { fullName := .str "Jane Doe"
    email := .str "jane@example.com"
    phone := .null
    city := .null
    fullAddress := .str "1 Main St"
    selectedPrizes := .arr (.cons (prizeRec "Mug") .nil)
    totalFee := .num 1500 }

/-- An already persisted example row. -/
def sampleRow : Row :=
  { id := 1
    full_name := "A"
    email := "a@b.c"
    phone := none
    city := none
    full_address := "x"
    selected_prizes := .arr .nil
    total_fee := 0
    claim_date := 0 }

/-- A database already holding `sampleRow`. -/
def dbOne : DBState :=
  { reachable := true, table := some { rows := [sampleRow], nextId := 2 }, clock := 1 }

/-- A second persisted example row, newer than `sampleRow`. -/
def sampleRow2 : Row :=
  { sampleRow with id := 2, full_name := "B", claim_date := 1 }

/-- A database holding two rows in insertion order (oldest first). -/
def dbTwo : DBState :=
  { reachable := true
    table := some { rows := [sampleRow, sampleRow2], nextId := 3 }
    clock := 2 }

/-- Keys of a JSON response envelope. -/
def envelopeKeys : RespBody → List String
  | .jsonObj fs => fs.map Prod.fst
  | .text _ => []

/-! ### The claims -/

/-- Claim C1, counterexample: a submission whose body contains every
mandatory field (`fullName`, `email`, `fullAddress`, `selectedPrizes`,
`totalFee` are all present, defined and even truthy — `totalFee` is the
string `"abc"`) is answered with 500 and persists no row at all, so it is
not the case that every submission containing all mandatory fields persists
exactly one row and receives a tracking identifier. -/
theorem c1_counterexample :
    isUndef ({ janeBody with totalFee := .str "abc" } : ReqBody).fullName = false ∧
    isUndef ({ janeBody with totalFee := .str "abc" } : ReqBody).email = false ∧
    isUndef ({ janeBody with totalFee := .str "abc" } : ReqBody).fullAddress = false ∧
    isUndef ({ janeBody with totalFee := .str "abc" } : ReqBody).selectedPrizes = false ∧
    isUndef ({ janeBody with totalFee := .str "abc" } : ReqBody).totalFee = false ∧
    (postClaim someUrl { janeBody with totalFee := .str "abc" } freshDB).resp.status = 500 ∧
    (postClaim someUrl { janeBody with totalFee := .str "abc" } freshDB).db = freshDB := by
  decide

/-- Claim C1, amended: for every submission whose mandatory fields are all
present and truthy, whose `totalFee` parses via `parseInt` to an integer
inside the `INTEGER` (int4) range, and whose text fields fit their `VARCHAR`
limits, when the store is reachable and the claims table exists,
`POST /claim` persists exactly one new row and responds with the tracking
identifier `TEMU-CLAIM-` followed by the freshly assigned row id, which
differs from every existing id (ids stay strictly below the advancing
sequence value, so they are never reused), and the tracking identifier did
not previously exist. -/
theorem c1_amended_fresh_tracking (dbUrl : Option String) (body : ReqBody)
    (db : DBState) (t : ClaimsTable) (fee : Int)
    (hurl : envTruthy dbUrl = true)
    (hreach : db.reachable = true)
    (htab : db.table = some t)
    (h1 : truthy body.fullName = true)
    (h2 : truthy body.email = true)
    (h3 : truthy body.fullAddress = true)
    (h4 : truthy body.selectedPrizes = true)
    (hfee : parseIntTen body.totalFee = some fee)
    (hrange : int4Range fee = true)
    (hname : varcharOk 255 body.fullName = true)
    (hemail : varcharOk 255 body.email = true)
    (hphone : varcharOk 50 body.phone = true)
    (hcity : varcharOk 100 body.city = true)
    (hids : ∀ r ∈ t.rows, r.id < t.nextId) :
    ∃ row,
      (postClaim dbUrl body db).db.table = some ⟨t.rows ++ [row], t.nextId + 1⟩ ∧
      (postClaim dbUrl body db).resp = successResp row.id ∧
      row.id = t.nextId ∧
      (∀ r ∈ t.rows, r.id ≠ row.id) ∧
      (∀ r ∈ t.rows,
        "TEMU-CLAIM-" ++ Nat.repr row.id ≠ "TEMU-CLAIM-" ++ Nat.repr r.id) ∧
      (∀ r ∈ t.rows ++ [row], r.id < t.nextId + 1) := by
  obtain ⟨sp, hsp, heq⟩ := postClaim_success hurl hreach htab h1 h2 h3 h4 hfee
    hrange hname hemail hphone hcity
  refine ⟨insertedRow body sp fee t.nextId db.clock, ?_, ?_, rfl, ?_, ?_, ?_⟩
  · rw [heq]
  · rw [heq]
    rfl
  · intro r hr
    have := hids r hr
    simp only [insertedRow]
    omega
  · intro r hr hne
    have hlt := hids r hr
    have := trackingId_injective hne
    simp only [insertedRow] at this
    omega
  · intro r hr
    rcases List.mem_append.mp hr with hmem | hmem
    · exact Nat.lt_succ_of_lt (hids r hmem)
    · rw [List.mem_singleton.mp hmem]
      simp only [insertedRow]
      omega

/-- Claim C1, witness: the amended theorem applied to a concrete valid
submission against a store already holding one row. -/
theorem c1_amended_fresh_tracking_witness :
    ∃ row,
      (postClaim someUrl janeBody dbOne).db.table = some ⟨[sampleRow] ++ [row], 3⟩ ∧
      (postClaim someUrl janeBody dbOne).resp = successResp row.id ∧
      row.id = 2 ∧
      (∀ r ∈ [sampleRow], r.id ≠ row.id) ∧
      (∀ r ∈ [sampleRow],
        "TEMU-CLAIM-" ++ Nat.repr row.id ≠ "TEMU-CLAIM-" ++ Nat.repr r.id) ∧
      (∀ r ∈ [sampleRow] ++ [row], r.id < 3) :=
  c1_amended_fresh_tracking someUrl janeBody dbOne { rows := [sampleRow], nextId := 2 } 1500
    (by decide) (by decide) rfl (by decide) (by decide) (by decide) (by decide)
    (by decide) (by decide) (by decide) (by decide) (by decide) (by decide) (by decide)

/-- Claim C2, counterexample: a body in which every mandatory field is
present and defined — `fullName` is the empty string — is still rejected
with 400, so field absence/undefinedness is not the only condition checked
(emptiness of a field also causes a 400). -/
theorem c2_counterexample :
    isUndef ({ janeBody with fullName := .str "" } : ReqBody).fullName = false ∧
    isUndef ({ janeBody with fullName := .str "" } : ReqBody).email = false ∧
    isUndef ({ janeBody with fullName := .str "" } : ReqBody).fullAddress = false ∧
    isUndef ({ janeBody with fullName := .str "" } : ReqBody).selectedPrizes = false ∧
    isUndef ({ janeBody with fullName := .str "" } : ReqBody).totalFee = false ∧
    (postClaim someUrl { janeBody with fullName := .str "" } freshDB).resp.status = 400 := by
  decide

/-- Claim C2, amended: with `DATABASE_URL` configured, `POST /claim`
responds 400 exactly when `fullName`, `email`, `fullAddress` or
`selectedPrizes` is falsy under JavaScript truthiness (absent, `undefined`,
`null`, `false`, `0`, or the empty string) or `totalFee` is strictly
`undefined`; beyond this truthiness test no format validation is
performed. -/
theorem c2_amended_validation_iff (dbUrl : Option String) (body : ReqBody) (db : DBState)
    (hurl : envTruthy dbUrl = true) :
    (postClaim dbUrl body db).resp.status = 400 ↔
      (truthy body.fullName = false ∨ truthy body.email = false ∨
       truthy body.fullAddress = false ∨ truthy body.selectedPrizes = false ∨
       body.totalFee = JValue.undefined) := by
  have hval : (!truthy body.fullName || !truthy body.email || !truthy body.fullAddress
      || !truthy body.selectedPrizes || isUndef body.totalFee) = true ↔
      (truthy body.fullName = false ∨ truthy body.email = false ∨
       truthy body.fullAddress = false ∨ truthy body.selectedPrizes = false ∨
       body.totalFee = JValue.undefined) := by
    simp [isUndef_iff, Bool.or_assoc, Bool.not_eq_true']
  unfold postClaim
  rw [hurl]
  simp only [Bool.not_true, Bool.false_eq_true, if_false]
  cases hcond : (!truthy body.fullName || !truthy body.email || !truthy body.fullAddress
      || !truthy body.selectedPrizes || isUndef body.totalFee) with
  | true =>
    rw [if_pos rfl]
    constructor
    · intro _
      exact hval.mp hcond
    · intro _
      rfl
  | false =>
    rw [if_neg (by simp)]
    constructor
    · intro h400
      exfalso
      revert h400
      split
      · simp
      · simp
    · intro h
      exact absurd (hval.mpr h) (by simp [hcond])

/-- Claim C2, witness: the amended characterization applied to a concrete
body missing `email`, yielding a 400. -/
theorem c2_amended_validation_iff_witness :
    (postClaim someUrl { janeBody with email := .undefined } freshDB).resp.status = 400 :=
  (c2_amended_validation_iff someUrl { janeBody with email := .undefined } freshDB
    (by decide)).mpr (Or.inr (Or.inl (by decide)))

/-- Claim C3: every failing `POST /claim` request — validation failure (400)
or storage failure (500) — leaves the store completely unchanged, and a row
is appended exactly on the success path (one full row, with the sequence and
clock advanced). -/
theorem c3_no_rows_on_failure (dbUrl : Option String) (body : ReqBody) (db : DBState) :
    ((postClaim dbUrl body db).resp.status ≠ 200 → (postClaim dbUrl body db).db = db) ∧
    ((postClaim dbUrl body db).resp.status = 200 →
      ∃ t row, db.table = some t ∧
        (postClaim dbUrl body db).db =
          { db with
            table := some ⟨t.rows ++ [row], t.nextId + 1⟩
            clock := db.clock + 1 }) := by
  unfold postClaim
  split
  · exact ⟨fun _ => rfl, fun h => absurd h (by simp)⟩
  · split
    · exact ⟨fun _ => rfl, fun h => absurd h (by simp)⟩
    · split <;>
        first
          | exact ⟨fun _ => rfl, fun h => absurd h (by simp)⟩
          | (rename_i hins
             obtain ⟨t, row, htab, hcid, hdb⟩ := dbInsert_ok hins
             exact ⟨fun h => absurd rfl h, fun _ => ⟨t, row, htab, hdb⟩⟩)

/-- Claim C3, witness: a concrete validation failure (everything absent)
leaves the concrete store unchanged. -/
theorem c3_no_rows_on_failure_witness :
    (postClaim someUrl
      { fullName := .undefined, email := .undefined, phone := .undefined
        city := .undefined, fullAddress := .undefined, selectedPrizes := .undefined
        totalFee := .undefined } dbOne).db = dbOne :=
  (c3_no_rows_on_failure someUrl _ dbOne).1 (by decide)

/-- Claim C4: the listing route's `SELECT ... ORDER BY claim_date DESC`
returns all persisted claims (a permutation of the store's rows) in
non-increasing creation-time order, responds 200, and an empty store yields
the explicit no-data message rather than an error. -/
theorem c4_listing_order_and_empty (dbUrl : Option String) (db : DBState) (t : ClaimsTable)
    (hurl : envTruthy dbUrl = true)
    (hreach : db.reachable = true)
    (htab : db.table = some t) :
    (orderByDateDesc t.rows).Perm t.rows ∧
    (orderByDateDesc t.rows).Pairwise newestFirst ∧
    (viewClaims dbUrl db).resp.status = 200 ∧
    (t.rows = [] →
      (viewClaims dbUrl db).resp =
        { status := 200, body := .text "No claim data found in the database yet." }) := by
  refine ⟨List.perm_insertionSort newestFirst t.rows,
    List.sorted_insertionSort newestFirst t.rows, ?_, ?_⟩
  · unfold viewClaims
    rw [hurl, hreach, htab]
    simp only [Bool.not_true, Bool.false_eq_true, if_false]
    split <;> rfl
  · intro hrows
    unfold viewClaims
    rw [hurl, hreach, htab]
    simp [hrows, orderByDateDesc, List.insertionSort]

/-- Claim C4, witness: the listing theorem applied to a concrete store
holding two rows inserted oldest-first; the listing is a sorted permutation
and the route responds 200. -/
theorem c4_listing_order_and_empty_witness :
    (orderByDateDesc [sampleRow, sampleRow2]).Perm [sampleRow, sampleRow2] ∧
    (orderByDateDesc [sampleRow, sampleRow2]).Pairwise newestFirst ∧
    (viewClaims someUrl dbTwo).resp.status = 200 ∧
    ([sampleRow, sampleRow2] = ([] : List Row) →
      (viewClaims someUrl dbTwo).resp =
        { status := 200, body := .text "No claim data found in the database yet." }) :=
  c4_listing_order_and_empty someUrl dbTwo { rows := [sampleRow, sampleRow2], nextId := 3 }
    (by decide) (by decide) rfl

/-- Claim C5: when `DATABASE_URL` is not configured, the process still
starts (setup is skipped, nothing throws), and both store-dependent routes
answer 500 with a message stating the store is unconfigured while attempting
no database call at all. -/
theorem c5_unconfigured_store (dbUrl : Option String) (body : ReqBody) (db : DBState)
    (hurl : envTruthy dbUrl = false) :
    startProcess dbUrl db = .ok (db, false) ∧
    postClaim dbUrl body db =
      { resp := { status := 500
                  body := .jsonObj
                    [("success", .bool false),
                     ("message", .str "Database connection failed: DATABASE_URL is not set.")] }
        db := db
        dbCalls := 0 } ∧
    viewClaims dbUrl db =
      { resp := { status := 500, body := .text "Database not configured." }
        db := db
        dbCalls := 0 } := by
  refine ⟨?_, ?_, ?_⟩
  · simp [startProcess, setupDatabase, hurl]
  · unfold postClaim
    rw [hurl]
    rfl
  · unfold viewClaims
    rw [hurl]
    rfl

/-- Claim C5, witness: the unconfigured-store theorem at a concrete state
and body, with `DATABASE_URL` absent. -/
theorem c5_unconfigured_store_witness :
    startProcess none freshDB = .ok (freshDB, false) ∧
    postClaim none janeBody freshDB =
      { resp := { status := 500
                  body := .jsonObj
                    [("success", .bool false),
                     ("message", .str "Database connection failed: DATABASE_URL is not set.")] }
        db := freshDB
        dbCalls := 0 } ∧
    viewClaims none freshDB =
      { resp := { status := 500, body := .text "Database not configured." }
        db := freshDB
        dbCalls := 0 } :=
  c5_unconfigured_store none janeBody freshDB (by decide)

/-- Claim C6: schema initialization is idempotent — an existing table (and
all of its rows) survives `setupDatabase` untouched, and when the database
is reachable a second consecutive run changes nothing and reports no
error. -/
theorem c6_setup_idempotent (dbUrl : Option String) (db : DBState) :
    (∀ t, db.table = some t → (setupDatabase dbUrl db).1.table = some t) ∧
    (db.reachable = true →
      setupDatabase dbUrl (setupDatabase dbUrl db).1 = ((setupDatabase dbUrl db).1, false)) := by
  constructor
  · intro t ht
    by_cases hu : envTruthy dbUrl
    · cases hr : db.reachable <;>
        simp [setupDatabase, createTableIfNotExists, hu, hr, ht]
    · simp [setupDatabase, hu, ht]
  · intro hr
    by_cases hu : envTruthy dbUrl
    · cases htab : db.table <;>
        simp [setupDatabase, createTableIfNotExists, hu, hr, htab]
    · simp [setupDatabase, hu]

/-- Claim C6, witness: two consecutive schema setups on a concrete reachable
store holding one row leave the state unchanged and report no error. -/
theorem c6_setup_idempotent_witness :
    setupDatabase someUrl (setupDatabase someUrl dbOne).1 =
      ((setupDatabase someUrl dbOne).1, false) :=
  (c6_setup_idempotent someUrl dbOne).2 (by decide)

/-- Claim C7: a successfully persisted `selectedPrizes` list read back via
the listing is structurally equal to the submitted list — same length, same
order, each element structurally equal (and literally equal for minimal
`name`-record prizes); the stored value is the `jsonb` form of the submitted
array, array order untouched, and the inserted row is visible in the
listing's row set. -/
theorem c7_prizes_round_trip (dbUrl : Option String) (body : ReqBody) (db : DBState)
    (t : ClaimsTable) (fee : Int) (ps : JArr)
    (hurl : envTruthy dbUrl = true)
    (hreach : db.reachable = true)
    (htab : db.table = some t)
    (h1 : truthy body.fullName = true)
    (h2 : truthy body.email = true)
    (h3 : truthy body.fullAddress = true)
    (hprizes : body.selectedPrizes = .arr ps)
    (hnu : ps.noUndef = true)
    (hfee : parseIntTen body.totalFee = some fee)
    (hrange : int4Range fee = true)
    (hname : varcharOk 255 body.fullName = true)
    (hemail : varcharOk 255 body.email = true)
    (hphone : varcharOk 50 body.phone = true)
    (hcity : varcharOk 100 body.city = true) :
    ∃ row,
      (postClaim dbUrl body db).db.table = some ⟨t.rows ++ [row], t.nextId + 1⟩ ∧
      row.selected_prizes = .arr (jsonbArr ps) ∧
      structEq row.selected_prizes (.arr ps) ∧
      (jsonbArr ps).length = ps.length ∧
      (∀ i, (jsonbArr ps).get? i = (ps.get? i).map jsonbVal) ∧
      (∀ i v, ps.get? i = some v → structEq (jsonbVal v) v) ∧
      (∀ i s, ps.get? i = some (prizeRec s) → (jsonbArr ps).get? i = some (prizeRec s)) ∧
      row ∈ orderByDateDesc (t.rows ++ [row]) := by
  have h4 : truthy body.selectedPrizes = true := by rw [hprizes]; rfl
  obtain ⟨sp, hsp, heq⟩ := postClaim_success hurl hreach htab h1 h2 h3 h4 hfee
    hrange hname hemail hphone hcity
  have hnu' : JValue.noUndef (.arr ps) = true := by simpa [JValue.noUndef] using hnu
  have hspv : sp = .arr ps := by
    rw [hprizes, stringify_of_noUndef hnu'] at hsp
    exact ((Option.some.injEq _ _).mp hsp).symm
  subst hspv
  refine ⟨insertedRow body (.arr ps) fee t.nextId db.clock, ?_, rfl, ?_, jsonbArr_length ps,
    jsonbArr_get? ps, ?_, ?_, ?_⟩
  · rw [heq]
  · exact structEq_jsonbVal_self (.arr ps)
  · intro _ v _
    exact structEq_jsonbVal_self v
  · intro i s hv
    rw [jsonbArr_get? ps i, hv]
    rfl
  · have hperm := List.perm_insertionSort newestFirst
      (t.rows ++ [insertedRow body (.arr ps) fee t.nextId db.clock])
    exact hperm.mem_iff.mpr (List.mem_append_right _ (List.mem_singleton.mpr rfl))

/-- Claim C7, witness: the round-trip theorem at a concrete submission with
a two-element prize list. -/
theorem c7_prizes_round_trip_witness :
    ∃ row,
      (postClaim someUrl
        { janeBody with
          selectedPrizes := .arr (.cons (prizeRec "Mug") (.cons (prizeRec "Lamp") .nil)) }
        freshDB).db.table = some ⟨[] ++ [row], 2⟩ ∧
      row.selected_prizes =
        .arr (jsonbArr (.cons (prizeRec "Mug") (.cons (prizeRec "Lamp") .nil))) ∧
      structEq row.selected_prizes
        (.arr (.cons (prizeRec "Mug") (.cons (prizeRec "Lamp") .nil))) ∧
      (jsonbArr (.cons (prizeRec "Mug") (.cons (prizeRec "Lamp") .nil))).length =
        JArr.length (.cons (prizeRec "Mug") (.cons (prizeRec "Lamp") .nil)) ∧
      (∀ i, (jsonbArr (.cons (prizeRec "Mug") (.cons (prizeRec "Lamp") .nil))).get? i =
        (JArr.get? (.cons (prizeRec "Mug") (.cons (prizeRec "Lamp") .nil)) i).map jsonbVal) ∧
      (∀ i v, JArr.get? (.cons (prizeRec "Mug") (.cons (prizeRec "Lamp") .nil)) i = some v →
        structEq (jsonbVal v) v) ∧
      (∀ i s, JArr.get? (.cons (prizeRec "Mug") (.cons (prizeRec "Lamp") .nil)) i =
        some (prizeRec s) →
        (jsonbArr (.cons (prizeRec "Mug") (.cons (prizeRec "Lamp") .nil))).get? i =
          some (prizeRec s)) ∧
      row ∈ orderByDateDesc ([] ++ [row]) :=
  c7_prizes_round_trip someUrl
    { janeBody with
      selectedPrizes := .arr (.cons (prizeRec "Mug") (.cons (prizeRec "Lamp") .nil)) }
    freshDB { rows := [], nextId := 1 } 1500
    (.cons (prizeRec "Mug") (.cons (prizeRec "Lamp") .nil))
    (by decide) (by decide) rfl (by decide) (by decide) (by decide) rfl (by decide) (by decide)
    (by decide) (by decide) (by decide) (by decide) (by decide)

/-- Claim C8, counterexample: a concrete successful `POST /claim` is
answered with an envelope whose keys are exactly `success`, `message` and
`trackingId` — the recorded shipping fee does not appear in the success
envelope under any plausible key. -/
theorem c8_counterexample :
    (postClaim someUrl janeBody freshDB).resp.status = 200 ∧
    envelopeKeys (postClaim someUrl janeBody freshDB).resp.body =
      ["success", "message", "trackingId"] ∧
    "fee" ∉ envelopeKeys (postClaim someUrl janeBody freshDB).resp.body ∧
    "totalFee" ∉ envelopeKeys (postClaim someUrl janeBody freshDB).resp.body ∧
    "total_fee" ∉ envelopeKeys (postClaim someUrl janeBody freshDB).resp.body := by
  decide

/-- Claim C8, amended: on every successful `POST /claim` the JSON success
envelope contains the generated tracking identifier (and a success flag and
message) but does not contain the recorded shipping fee. -/
theorem c8_amended_success_envelope (dbUrl : Option String) (body : ReqBody)
    (db : DBState) (t : ClaimsTable) (fee : Int)
    (hurl : envTruthy dbUrl = true)
    (hreach : db.reachable = true)
    (htab : db.table = some t)
    (h1 : truthy body.fullName = true)
    (h2 : truthy body.email = true)
    (h3 : truthy body.fullAddress = true)
    (h4 : truthy body.selectedPrizes = true)
    (hfee : parseIntTen body.totalFee = some fee)
    (hrange : int4Range fee = true)
    (hname : varcharOk 255 body.fullName = true)
    (hemail : varcharOk 255 body.email = true)
    (hphone : varcharOk 50 body.phone = true)
    (hcity : varcharOk 100 body.city = true) :
    (postClaim dbUrl body db).resp = successResp t.nextId ∧
    envelopeKeys (postClaim dbUrl body db).resp.body =
      ["success", "message", "trackingId"] ∧
    "fee" ∉ envelopeKeys (postClaim dbUrl body db).resp.body := by
  obtain ⟨sp, hsp, heq⟩ := postClaim_success hurl hreach htab h1 h2 h3 h4 hfee
    hrange hname hemail hphone hcity
  rw [heq]
  exact ⟨rfl, rfl, by simp [envelopeKeys, successResp]⟩

/-- Claim C8, witness: the amended envelope theorem at a concrete valid
submission. -/
theorem c8_amended_success_envelope_witness :
    (postClaim someUrl janeBody dbOne).resp = successResp 2 ∧
    envelopeKeys (postClaim someUrl janeBody dbOne).resp.body =
      ["success", "message", "trackingId"] ∧
    "fee" ∉ envelopeKeys (postClaim someUrl janeBody dbOne).resp.body :=
  c8_amended_success_envelope someUrl janeBody dbOne { rows := [sampleRow], nextId := 2 } 1500
    (by decide) (by decide) rfl (by decide) (by decide) (by decide) (by decide) (by decide)
    (by decide) (by decide) (by decide) (by decide) (by decide)

/-- Claim C9, counterexample: a submission with `totalFee = -5` is accepted
(200) and persists a row whose `total_fee` is the negative integer `-5`, so
it is not the case that every persisted claim has a non-negative fee. -/
theorem c9_counterexample :
    (postClaim someUrl { janeBody with totalFee := .num (-5) } freshDB).resp.status = 200 ∧
    ((postClaim someUrl { janeBody with totalFee := .num (-5) } freshDB).db.table.map
      (fun t2 => t2.rows.map Row.total_fee)) = some [(-5 : Int)] ∧
    ((-5 : Int) < 0) := by
  decide

/-- Claim C9, amended: every row persisted by `POST /claim` stores in
`total_fee` exactly the integer `parseInt(totalFee, 10)` of the submission —
the `INTEGER NOT NULL` column forces the fee to be a parseable integer
inside the int4 range (unparseable or out-of-range fees fail the insert with
500 and no row), but no non-negativity is enforced and negative fees are
persisted. -/
theorem c9_amended_fee_is_parseint (dbUrl : Option String) (body : ReqBody)
    (db : DBState) (t : ClaimsTable) (fee : Int)
    (hurl : envTruthy dbUrl = true)
    (hreach : db.reachable = true)
    (htab : db.table = some t)
    (h1 : truthy body.fullName = true)
    (h2 : truthy body.email = true)
    (h3 : truthy body.fullAddress = true)
    (h4 : truthy body.selectedPrizes = true)
    (hfee : parseIntTen body.totalFee = some fee)
    (hrange : int4Range fee = true)
    (hname : varcharOk 255 body.fullName = true)
    (hemail : varcharOk 255 body.email = true)
    (hphone : varcharOk 50 body.phone = true)
    (hcity : varcharOk 100 body.city = true) :
    ∃ row,
      (postClaim dbUrl body db).db.table = some ⟨t.rows ++ [row], t.nextId + 1⟩ ∧
      parseIntTen body.totalFee = some row.total_fee := by
  obtain ⟨sp, hsp, heq⟩ := postClaim_success hurl hreach htab h1 h2 h3 h4 hfee
    hrange hname hemail hphone hcity
  refine ⟨insertedRow body sp fee t.nextId db.clock, by rw [heq], ?_⟩
  simpa [insertedRow] using hfee

/-- Claim C9, witness: the amended fee theorem applied to a concrete
submission carrying a negative fee, which is persisted as `-5`. -/
theorem c9_amended_fee_is_parseint_witness :
    ∃ row,
      (postClaim someUrl { janeBody with totalFee := .num (-5) } freshDB).db.table =
        some ⟨[] ++ [row], 2⟩ ∧
      parseIntTen ({ janeBody with totalFee := .num (-5) } : ReqBody).totalFee =
        some row.total_fee :=
  c9_amended_fee_is_parseint someUrl { janeBody with totalFee := .num (-5) } freshDB
    { rows := [], nextId := 1 } (-5)
    (by decide) (by decide) rfl (by decide) (by decide) (by decide) (by decide) (by decide)
    (by decide) (by decide) (by decide) (by decide) (by decide)

/-- Claim C10: when `totalFee` is present but not parseable as an integer
(for example `null` or a non-numeric string), validation passes (only
`totalFee === undefined` is checked), `parseInt` yields `NaN`, the insert is
attempted (one database call) and fails at the `INTEGER NOT NULL` column,
and the client receives 500 with the storage error message — not 400 — with
no row persisted. -/
theorem c10_unparseable_fee_yields_500 (dbUrl : Option String) (body : ReqBody)
    (db : DBState) (t : ClaimsTable)
    (hurl : envTruthy dbUrl = true)
    (hreach : db.reachable = true)
    (htab : db.table = some t)
    (h1 : truthy body.fullName = true)
    (h2 : truthy body.email = true)
    (h3 : truthy body.fullAddress = true)
    (h4 : truthy body.selectedPrizes = true)
    (hdef : isUndef body.totalFee = false)
    (hfee : parseIntTen body.totalFee = none) :
    postClaim dbUrl body db =
      { resp := { status := 500
                  body := .jsonObj
                    [("success", .bool false),
                     ("message", .str "Claim failed due to a database error. Check server logs for details."),
                     ("error", .str (DBError.message .invalidIntegerText))] }
        db := db
        dbCalls := 1 } := by
  have hins : dbInsert db
      { full_name := body.fullName
        email := body.email
        phone := body.phone
        city := body.city
        full_address := body.fullAddress
        selected_prizes := stringifyVal body.selectedPrizes
        total_fee := parseIntTen body.totalFee } =
      .error .invalidIntegerText := by
    unfold dbInsert
    rw [hreach, htab, hfee]
    rfl
  unfold postClaim
  rw [hurl]
  simp only [Bool.not_true, Bool.false_eq_true, if_false, h1, h2, h3, h4, hdef,
    Bool.false_or, Bool.or_false, Bool.or_self, hins]

/-- Claim C10, witness: a concrete submission with `totalFee = null` passes
validation, triggers one insert attempt and is answered 500 with the
storage error, leaving the store unchanged. -/
theorem c10_unparseable_fee_yields_500_witness :
    postClaim someUrl { janeBody with totalFee := .null } freshDB =
      { resp := { status := 500
                  body := .jsonObj
                    [("success", .bool false),
                     ("message", .str "Claim failed due to a database error. Check server logs for details."),
                     ("error", .str (DBError.message .invalidIntegerText))] }
        db := freshDB
        dbCalls := 1 } :=
  c10_unparseable_fee_yields_500 someUrl { janeBody with totalFee := .null } freshDB
    { rows := [], nextId := 1 }
    (by decide) (by decide) rfl (by decide) (by decide) (by decide) (by decide)
    (by decide) (by decide)

/-- Sanity check of the int4 model: a fee of `2147483648` parses via
`parseInt` to an integer, but it exceeds the `INTEGER` (int4) range, so the
insert fails — the handler answers 500 and persists no row. -/
theorem overflow_fee_rejected :
    parseIntTen (.num 2147483648) = some 2147483648 ∧
    int4Range 2147483648 = false ∧
    (postClaim someUrl { janeBody with totalFee := .num 2147483648 } freshDB).resp.status
      = 500 ∧
    (postClaim someUrl { janeBody with totalFee := .num 2147483648 } freshDB).db
      = freshDB := by
  decide

set_option maxRecDepth 4000 in
/-- Sanity check of the varchar model: a 300-character `fullName` is truthy
and passes validation, but exceeds `VARCHAR(255)`, so the insert fails — the
handler answers 500 and persists no row. -/
theorem overlong_name_rejected :
    truthy (.str (String.mk (List.replicate 300 'a'))) = true ∧
    varcharOk 255 (.str (String.mk (List.replicate 300 'a'))) = false ∧
    (postClaim someUrl
      { janeBody with fullName := .str (String.mk (List.replicate 300 'a')) }
      freshDB).resp.status = 500 ∧
    (postClaim someUrl
      { janeBody with fullName := .str (String.mk (List.replicate 300 'a')) }
      freshDB).db = freshDB := by
  decide

end TemuGiveaway
